import Mathlib

/-!
Verification of the ElectricEye AWS CloudHSM auditor
(`eeauditor/auditors/aws/AWS_CloudHSM_Auditor.py`).

The auditor defines three generator checks over a snapshot of CloudHSM
clusters:

* `cloudhsm_cluster_degradation_check` — one finding per cluster, failing
  when the cluster `State` is `DEGRADED`;
* `cloudhsm_hsm_degradation_check` — one finding per HSM of every cluster,
  failing when the HSM `State` is `DEGRADED`;
* `cloudhsm_cluster_backup_check` — one finding per cluster, failing when
  the backups fetched for that cluster id contain no backup whose
  `BackupState` is `READY`.

The shallow embedding below renders each check as a pure function of the
cluster snapshot, the account/region/partition strings, and the single
ISO-8601 timestamp string that the Python code samples once before its
loop (`iso8601Time = datetime.datetime.now(...).isoformat()`).  The
per-cluster `describe_backups` provider call of the third check is passed
in as a function from cluster id to response.  The cache-wrapped
`describe_clusters` helper and the error-propagation behaviour of the
generators are modelled separately further down.
-/

set_option maxHeartbeats 1000000

namespace ElectricEyeCloudHSM

/-- An HSM record as consumed by the auditor: `hsm["HsmId"]`, `hsm["State"]`. -/
structure Hsm where
  HsmId : String
  State : String
deriving DecidableEq, Repr

/-- A cluster record as consumed by the auditor: `clstr["ClusterId"]`,
`clstr["State"]`, `clstr["Hsms"]`. -/
structure Cluster where
  ClusterId : String
  State : String
  Hsms : List Hsm
deriving DecidableEq, Repr

/-- A backup record as consumed by the auditor: `x["BackupState"]` (and the
cluster it belongs to, present in the provider response). -/
structure Backup where
  ClusterId : String
  BackupState : String
deriving DecidableEq, Repr

/-- The `cloudhsm.describe_clusters()` response: a dict with key
`"Clusters"`. -/
structure ClusterResp where
  Clusters : List Cluster
deriving DecidableEq, Repr

/-- The `cloudhsm.describe_backups(...)` response: a dict with key
`"Backups"`. -/
structure BackupResp where
  Backups : List Backup
deriving DecidableEq, Repr

/-- `finding["Severity"]`: `{"Label": ...}`. -/
structure SeverityObj where
  Label : String
deriving DecidableEq, Repr

/-- `finding["Remediation"]["Recommendation"]`: `{"Text": ..., "Url": ...}`. -/
structure RecommendationObj where
  Text : String
  Url : String
deriving DecidableEq, Repr

/-- `finding["Remediation"]`: `{"Recommendation": {...}}`. -/
structure RemediationObj where
  Recommendation : RecommendationObj
deriving DecidableEq, Repr

/-- `finding["Compliance"]`: `{"Status": ..., "RelatedRequirements": [...]}`. -/
structure ComplianceObj where
  Status : String
  RelatedRequirements : List String
deriving DecidableEq, Repr

/-- `finding["Workflow"]`: `{"Status": ...}`. -/
structure WorkflowObj where
  Status : String
deriving DecidableEq, Repr

/-- One entry of `finding["Resources"]`.  The nested `Details` dict
`{detailsKey: {detailsIdKey: detailsIdVal}}` is flattened into its three
strings. -/
structure ResourceObj where
  type : String
  Id : String
  Partition : String
  Region : String
  detailsKey : String
  detailsIdKey : String
  detailsIdVal : String
deriving DecidableEq, Repr

/-- The finding dict yielded by every check, field for field.
`ProductName` stands for `ProductFields["Product Name"]`. -/
structure Finding where
  SchemaVersion : String
  Id : String
  ProductArn : String
  GeneratorId : String
  AwsAccountId : String
  Types : List String
  FirstObservedAt : String
  CreatedAt : String
  UpdatedAt : String
  Severity : SeverityObj
  Confidence : Nat
  Title : String
  Description : String
  Remediation : RemediationObj
  ProductName : String
  Resources : List ResourceObj
  Compliance : ComplianceObj
  Workflow : WorkflowObj
  RecordState : String
deriving DecidableEq, Repr

/-- The `RelatedRequirements` literal that every finding of this auditor
repeats verbatim (fourteen control citations). -/
def relatedRequirementsList : List String :=
  ["NIST CSF DE.AE-2",
   "NIST CSF DE.AE-3",
   "NIST CSF DE.AE-5",
   "NIST CSF DE.CM-1",
   "NIST CSF DE.DP-2",
   "NIST SP 800-53 AC-2",
   "NIST SP 800-53 AU-6",
   "NIST SP 800-53 AU-12",
   "NIST SP 800-53 IR-5",
   "NIST SP 800-53 IR-6",
   "AICPA TSC CC4.1",
   "AICPA TSC CC5.1",
   "ISO 27001:2013 A.10.1.2",
   "ISO 27001:2013 A.12.4.1"]

/-- The `ProductArn` f-string shared by all three checks. -/
def productArn (awsPartition awsRegion awsAccountId : String) : String :=
  s!"arn:{awsPartition}:securityhub:{awsRegion}:{awsAccountId}:product/{awsAccountId}/default"

/-- The body of the loop of `cloudhsm_cluster_degradation_check`
(source lines 44-158): one finding per cluster, the `if`/`else` choosing
between the passing and the failing literal dict. -/
def clusterDegradationFinding (awsAccountId awsRegion awsPartition iso8601Time : String)
    (clstr : Cluster) : Finding :=
  let ClusterId := clstr.ClusterId
  if clstr.State != "DEGRADED" then
    { SchemaVersion := "2018-10-08"
      Id := ClusterId ++ "/cloudhsm-cluster-degradation-check"
      ProductArn := productArn awsPartition awsRegion awsAccountId
      GeneratorId := ClusterId
      AwsAccountId := awsAccountId
      Types := ["Software and Configuration Checks/AWS Security Best Practices"]
      FirstObservedAt := iso8601Time
      CreatedAt := iso8601Time
      UpdatedAt := iso8601Time
      Severity := { Label := "INFORMATIONAL" }
      Confidence := 99
      Title := "[CloudHsm.1] CloudHsm clusters should not be in a degraded state"
      Description := s!"CloudHSM cluster {ClusterId} is not in a degraded state"
      Remediation := { Recommendation :=
        { Text := "For more information on HSM Clusters refer to the AWS CloudHsm User Guide on managing cloudhsm clusters"
          Url := "https://docs.aws.amazon.com/cloudhsm/latest/userguide/manage-clusters.html" } }
      ProductName := "ElectricEye"
      Resources := [{ type := "AwsCloudHsmCluster"
                      Id := ClusterId
                      Partition := awsPartition
                      Region := awsRegion
                      detailsKey := "AwsCloudHsmCluster"
                      detailsIdKey := "ClusterId"
                      detailsIdVal := ClusterId }]
      Compliance := { Status := "PASSED"
                      RelatedRequirements := relatedRequirementsList }
      Workflow := { Status := "RESOLVED" }
      RecordState := "ARCHIVED" }
  else
    { SchemaVersion := "2018-10-08"
      Id := ClusterId ++ "/cloudhsm-cluster-degradation-check"
      ProductArn := productArn awsPartition awsRegion awsAccountId
      GeneratorId := ClusterId
      AwsAccountId := awsAccountId
      Types := ["Software and Configuration Checks/AWS Security Best Practices"]
      FirstObservedAt := iso8601Time
      CreatedAt := iso8601Time
      UpdatedAt := iso8601Time
      Severity := { Label := "HIGH" }
      Confidence := 99
      Title := "[CloudHsm.1] CloudHsm clusters should not be in a degraded state"
      Description := s!"CloudHSM cluster {ClusterId} is in a degraded state"
      Remediation := { Recommendation :=
        { Text := "For more information on HSM Clusters refer to the AWS CloudHsm User Guide on managing cloudhsm clusters"
          Url := "https://docs.aws.amazon.com/cloudhsm/latest/userguide/manage-clusters.html" } }
      ProductName := "ElectricEye"
      Resources := [{ type := "AwsCloudHsmCluster"
                      Id := ClusterId
                      Partition := awsPartition
                      Region := awsRegion
                      detailsKey := "AwsCloudHsmCluster"
                      detailsIdKey := "ClusterId"
                      detailsIdVal := ClusterId }]
      Compliance := { Status := "FAILED"
                      RelatedRequirements := relatedRequirementsList }
      Workflow := { Status := "NEW" }
      RecordState := "ACTIVE" }

/-- `cloudhsm_cluster_degradation_check` as a function of the
`describe_clusters` snapshot: the generator yields exactly the image of
`clusterDegradationFinding` over `hsm_clusters["Clusters"]`, in order. -/
def cloudhsm_cluster_degradation_check (hsm_clusters : ClusterResp)
    (awsAccountId awsRegion awsPartition iso8601Time : String) : List Finding :=
  hsm_clusters.Clusters.map
    (clusterDegradationFinding awsAccountId awsRegion awsPartition iso8601Time)

/-- The body of the inner loop of `cloudhsm_hsm_degradation_check`
(source lines 168-282): one finding per HSM, the `if`/`else` choosing
between the passing and the failing literal dict.  Note that the `Id`
reuses the slug `cloudhsm-cluster-degradation-check` of the first check
(source lines 174 and 230). -/
def hsmDegradationFinding (awsAccountId awsRegion awsPartition iso8601Time : String)
    (hsm : Hsm) : Finding :=
  let HsmId := hsm.HsmId
  if hsm.State != "DEGRADED" then
    { SchemaVersion := "2018-10-08"
      Id := HsmId ++ "/cloudhsm-cluster-degradation-check"
      ProductArn := productArn awsPartition awsRegion awsAccountId
      GeneratorId := HsmId
      AwsAccountId := awsAccountId
      Types := ["Software and Configuration Checks/AWS Security Best Practices"]
      FirstObservedAt := iso8601Time
      CreatedAt := iso8601Time
      UpdatedAt := iso8601Time
      Severity := { Label := "INFORMATIONAL" }
      Confidence := 99
      Title := "[CloudHsm.2] CloudHsm HSMs should not be in a degraded state"
      Description := s!"CloudHSM HSM {HsmId} is not in a degraded state"
      Remediation := { Recommendation :=
        { Text := "For more information on HSM Clusters refer to the AWS CloudHsm User Guide on managing Hsms"
          Url := "https://docs.aws.amazon.com/cloudhsm/latest/userguide/introduction.html" } }
      ProductName := "ElectricEye"
      Resources := [{ type := "AwsCloudHsmHsm"
                      Id := HsmId
                      Partition := awsPartition
                      Region := awsRegion
                      detailsKey := "AwsCloudHsmHsm"
                      detailsIdKey := "HsmId"
                      detailsIdVal := HsmId }]
      Compliance := { Status := "PASSED"
                      RelatedRequirements := relatedRequirementsList }
      Workflow := { Status := "RESOLVED" }
      RecordState := "ARCHIVED" }
  else
    { SchemaVersion := "2018-10-08"
      Id := HsmId ++ "/cloudhsm-cluster-degradation-check"
      ProductArn := productArn awsPartition awsRegion awsAccountId
      GeneratorId := HsmId
      AwsAccountId := awsAccountId
      Types := ["Software and Configuration Checks/AWS Security Best Practices"]
      FirstObservedAt := iso8601Time
      CreatedAt := iso8601Time
      UpdatedAt := iso8601Time
      Severity := { Label := "HIGH" }
      Confidence := 99
      Title := "[CloudHsm.2] CloudHsm HSMs should not be in a degraded state"
      Description := s!"CloudHSM HSM {HsmId} is in a degraded state"
      Remediation := { Recommendation :=
        { Text := "For more information on HSM Clusters refer to the AWS CloudHsm User Guide on managing Hsms"
          Url := "https://docs.aws.amazon.com/cloudhsm/latest/userguide/introduction.html" } }
      ProductName := "ElectricEye"
      Resources := [{ type := "AwsCloudHsmHsm"
                      Id := HsmId
                      Partition := awsPartition
                      Region := awsRegion
                      detailsKey := "AwsCloudHsmHsm"
                      detailsIdKey := "HsmId"
                      detailsIdVal := HsmId }]
      Compliance := { Status := "FAILED"
                      RelatedRequirements := relatedRequirementsList }
      Workflow := { Status := "NEW" }
      RecordState := "ACTIVE" }

/-- `cloudhsm_hsm_degradation_check` as a function of the
`describe_clusters` snapshot: the nested `for` loops yield one finding per
HSM of every cluster, in order. -/
def cloudhsm_hsm_degradation_check (hsm_clusters : ClusterResp)
    (awsAccountId awsRegion awsPartition iso8601Time : String) : List Finding :=
  hsm_clusters.Clusters.flatMap (fun clstr =>
    clstr.Hsms.map (hsmDegradationFinding awsAccountId awsRegion awsPartition iso8601Time))

/-- The body of the loop of `cloudhsm_cluster_backup_check`
(source lines 291-412): the backups fetched for this cluster id are
filtered to `BackupState == "READY"`, and the `if`/`else` on
`len(activeBackups) > 0` chooses between the passing and the failing
literal dict. -/
def clusterBackupFinding (awsAccountId awsRegion awsPartition iso8601Time : String)
    (clstr : Cluster) (backups : BackupResp) : Finding :=
  let ClusterId := clstr.ClusterId
  let activeBackups := backups.Backups.filter (fun x => x.BackupState == "READY")
  if activeBackups.length > 0 then
    { SchemaVersion := "2018-10-08"
      Id := ClusterId ++ "/cloudhsm-cluster-backup-check"
      ProductArn := productArn awsPartition awsRegion awsAccountId
      GeneratorId := ClusterId
      AwsAccountId := awsAccountId
      Types := ["Software and Configuration Checks/AWS Security Best Practices"]
      FirstObservedAt := iso8601Time
      CreatedAt := iso8601Time
      UpdatedAt := iso8601Time
      Severity := { Label := "INFORMATIONAL" }
      Confidence := 99
      Title := "[CloudHsm.3] CloudHsm clusters should have at least 1 backup in a READY state"
      Description := s!"CloudHSM cluster {ClusterId} has at least 1 backup in a READY state"
      Remediation := { Recommendation :=
        { Text := "For more information on HSM Clusters refer to the AWS CloudHsm User Guide on managing Backups"
          Url := "https://docs.aws.amazon.com/cloudhsm/latest/userguide/backups.html" } }
      ProductName := "ElectricEye"
      Resources := [{ type := "AwsCloudHsmCluster"
                      Id := ClusterId
                      Partition := awsPartition
                      Region := awsRegion
                      detailsKey := "AwsCloudHsmCluster"
                      detailsIdKey := "ClusterId"
                      detailsIdVal := ClusterId }]
      Compliance := { Status := "PASSED"
                      RelatedRequirements := relatedRequirementsList }
      Workflow := { Status := "RESOLVED" }
      RecordState := "ARCHIVED" }
  else
    { SchemaVersion := "2018-10-08"
      Id := ClusterId ++ "/cloudhsm-cluster-backup-check"
      ProductArn := productArn awsPartition awsRegion awsAccountId
      GeneratorId := ClusterId
      AwsAccountId := awsAccountId
      Types := ["Software and Configuration Checks/AWS Security Best Practices"]
      FirstObservedAt := iso8601Time
      CreatedAt := iso8601Time
      UpdatedAt := iso8601Time
      Severity := { Label := "HIGH" }
      Confidence := 99
      Title := "[CloudHsm.3] CloudHsm clusters should have at least 1 backup in a READY state"
      Description := s!"CloudHSM cluster {ClusterId} does not have at least 1 backup in a READY state"
      Remediation := { Recommendation :=
        { Text := "For more information on HSM Clusters refer to the AWS CloudHsm User Guide on managing Backups"
          Url := "https://docs.aws.amazon.com/cloudhsm/latest/userguide/backups.html" } }
      ProductName := "ElectricEye"
      Resources := [{ type := "AwsCloudHsmCluster"
                      Id := ClusterId
                      Partition := awsPartition
                      Region := awsRegion
                      detailsKey := "AwsCloudHsmCluster"
                      detailsIdKey := "ClusterId"
                      detailsIdVal := ClusterId }]
      Compliance := { Status := "FAILED"
                      RelatedRequirements := relatedRequirementsList }
      Workflow := { Status := "NEW" }
      RecordState := "ACTIVE" }

/-- `cloudhsm_cluster_backup_check` as a function of the
`describe_clusters` snapshot and of the uncached per-cluster provider call
`cloudhsm.describe_backups` filtered to the one cluster id, passed
in as `describe_backups : String → BackupResp`. -/
def cloudhsm_cluster_backup_check (hsm_clusters : ClusterResp)
    (describe_backups : String → BackupResp)
    (awsAccountId awsRegion awsPartition iso8601Time : String) : List Finding :=
  hsm_clusters.Clusters.map (fun clstr =>
    clusterBackupFinding awsAccountId awsRegion awsPartition iso8601Time clstr
      (describe_backups clstr.ClusterId))

/-! ### The cache-wrapped `describe_clusters` helper (source lines 31-36)

The Python cache is a plain dict; the helper only ever touches the single
key `"describe_clusters"`, so the pass state is modelled by the optional
stored response under that key, together with a counter of how many times
the underlying provider call `cloudhsm.describe_clusters()` was issued.
`cache.get(...)` returns `None` (falsy) on a miss; on a hit it returns the
stored response dict, which always carries the key `"Clusters"` and is
therefore a non-empty dict, hence truthy — so `if response:` distinguishes
exactly the two `Option` cases. -/

/-- State of one audit pass: the cache entry under `"describe_clusters"`
and the number of provider invocations made so far. -/
structure PassState where
  cache : Option ClusterResp
  providerCalls : Nat
deriving DecidableEq, Repr

/-- A fresh pass starts with an empty cache and no provider calls. -/
def emptyPass : PassState := { cache := none, providerCalls := 0 }

/-- `describe_clusters(cache)` (source lines 31-36): return the cached
response when present, otherwise invoke the provider (modelled by the
fixed snapshot `provider` it would return), store it, and return it. -/
def describe_clusters (provider : ClusterResp) (s : PassState) :
    ClusterResp × PassState :=
  match s.cache with
  | some response => (response, s)
  | none =>
      (provider, { cache := some provider, providerCalls := s.providerCalls + 1 })

/-- The three registered checks, in registration order. -/
inductive CheckKind where
  | clusterDegradation
  | hsmDegradation
  | clusterBackup
deriving DecidableEq, Repr

/-- Run one check against the pass state: every check begins with
`hsm_clusters = describe_clusters(cache=cache)` and then produces its
findings from the returned snapshot. -/
def runCheck (provider : ClusterResp) (describe_backups : String → BackupResp)
    (awsAccountId awsRegion awsPartition iso8601Time : String)
    (k : CheckKind) (s : PassState) : List Finding × PassState :=
  let res := describe_clusters provider s
  match k with
  | .clusterDegradation =>
      (cloudhsm_cluster_degradation_check res.1 awsAccountId awsRegion awsPartition iso8601Time,
       res.2)
  | .hsmDegradation =>
      (cloudhsm_hsm_degradation_check res.1 awsAccountId awsRegion awsPartition iso8601Time,
       res.2)
  | .clusterBackup =>
      (cloudhsm_cluster_backup_check res.1 describe_backups
        awsAccountId awsRegion awsPartition iso8601Time,
       res.2)

/-- Run a sequence of checks, threading the shared cache, and return the
final pass state. -/
def runPass (provider : ClusterResp) (describe_backups : String → BackupResp)
    (awsAccountId awsRegion awsPartition iso8601Time : String) :
    List CheckKind → PassState → PassState
  | [], s => s
  | k :: ks, s =>
      runPass provider describe_backups awsAccountId awsRegion awsPartition iso8601Time ks
        (runCheck provider describe_backups awsAccountId awsRegion awsPartition iso8601Time k s).2

/-! ### Error propagation (generator semantics)

The checks contain no `try`/`except`: a provider error raised inside the
generator aborts it.  A check invocation is modelled as the list of
findings yielded before any error together with the propagated error, if
one occurred. -/

/-- An error raised by the provider (throttling, auth, network, ...). -/
structure ProviderError where
  msg : String
deriving DecidableEq, Repr

/-- `cloudhsm_cluster_degradation_check` when the initial
`describe_clusters` fetch may fail: the fetch happens before the loop, so
a failing fetch propagates the error with no finding yielded. -/
def cluster_degradation_check_run (fetchClusters : Except ProviderError ClusterResp)
    (awsAccountId awsRegion awsPartition iso8601Time : String) :
    List Finding × Option ProviderError :=
  match fetchClusters with
  | .error e => ([], some e)
  | .ok hsm_clusters =>
      (cloudhsm_cluster_degradation_check hsm_clusters
        awsAccountId awsRegion awsPartition iso8601Time, none)

/-- The loop of `cloudhsm_cluster_backup_check` when the per-cluster
`describe_backups` call may fail: each iteration first fetches the
backups of the cluster; a raised error aborts the generator, keeping the
findings already yielded and propagating the error. -/
def cluster_backup_check_loop (fetchBackups : String → Except ProviderError BackupResp)
    (awsAccountId awsRegion awsPartition iso8601Time : String) :
    List Cluster → List Finding × Option ProviderError
  | [] => ([], none)
  | clstr :: rest =>
      match fetchBackups clstr.ClusterId with
      | .error e => ([], some e)
      | .ok backups =>
          let f := clusterBackupFinding awsAccountId awsRegion awsPartition iso8601Time
            clstr backups
          let tail := cluster_backup_check_loop fetchBackups
            awsAccountId awsRegion awsPartition iso8601Time rest
          (f :: tail.1, tail.2)

/-! ### Timestamp erasure, for the idempotence property -/

/-- Blank the three timestamp fields of a finding, leaving every other
field untouched. -/
def stripTimestamps (f : Finding) : Finding :=
  { f with FirstObservedAt := "", CreatedAt := "", UpdatedAt := "" }

/-- The pass/fail predicate of the backup check: at least one fetched
backup is in the `READY` state (`len(activeBackups) > 0` on the filter of the source). -/
def hasReadyBackup (backups : BackupResp) : Prop :=
  (backups.Backups.filter (fun x => x.BackupState == "READY")).length > 0

instance (backups : BackupResp) : Decidable (hasReadyBackup backups) := by
  unfold hasReadyBackup; infer_instance

/-! ### Projection lemmas for the three finding builders -/

section BuilderLemmas

variable (a r p t t₁ t₂ : String) (c : Cluster) (hsm : Hsm) (bk : BackupResp)

@[simp] lemma clusterDegradationFinding_Status :
    (clusterDegradationFinding a r p t c).Compliance.Status
      = if c.State = "DEGRADED" then "FAILED" else "PASSED" := by
  unfold clusterDegradationFinding
  by_cases h : c.State = "DEGRADED" <;> simp [h]

@[simp] lemma clusterDegradationFinding_Label :
    (clusterDegradationFinding a r p t c).Severity.Label
      = if c.State = "DEGRADED" then "HIGH" else "INFORMATIONAL" := by
  unfold clusterDegradationFinding
  by_cases h : c.State = "DEGRADED" <;> simp [h]

@[simp] lemma clusterDegradationFinding_Workflow :
    (clusterDegradationFinding a r p t c).Workflow.Status
      = if c.State = "DEGRADED" then "NEW" else "RESOLVED" := by
  unfold clusterDegradationFinding
  by_cases h : c.State = "DEGRADED" <;> simp [h]

@[simp] lemma clusterDegradationFinding_RecordState :
    (clusterDegradationFinding a r p t c).RecordState
      = if c.State = "DEGRADED" then "ACTIVE" else "ARCHIVED" := by
  unfold clusterDegradationFinding
  by_cases h : c.State = "DEGRADED" <;> simp [h]

@[simp] lemma clusterDegradationFinding_Id :
    (clusterDegradationFinding a r p t c).Id
      = c.ClusterId ++ "/cloudhsm-cluster-degradation-check" := by
  unfold clusterDegradationFinding
  by_cases h : c.State = "DEGRADED" <;> simp [h]

@[simp] lemma clusterDegradationFinding_GeneratorId :
    (clusterDegradationFinding a r p t c).GeneratorId = c.ClusterId := by
  unfold clusterDegradationFinding
  by_cases h : c.State = "DEGRADED" <;> simp [h]

@[simp] lemma clusterDegradationFinding_FirstObservedAt :
    (clusterDegradationFinding a r p t c).FirstObservedAt = t := by
  unfold clusterDegradationFinding
  by_cases h : c.State = "DEGRADED" <;> simp [h]

@[simp] lemma clusterDegradationFinding_CreatedAt :
    (clusterDegradationFinding a r p t c).CreatedAt = t := by
  unfold clusterDegradationFinding
  by_cases h : c.State = "DEGRADED" <;> simp [h]

@[simp] lemma clusterDegradationFinding_UpdatedAt :
    (clusterDegradationFinding a r p t c).UpdatedAt = t := by
  unfold clusterDegradationFinding
  by_cases h : c.State = "DEGRADED" <;> simp [h]

lemma clusterDegradationFinding_strip :
    stripTimestamps (clusterDegradationFinding a r p t₁ c)
      = stripTimestamps (clusterDegradationFinding a r p t₂ c) := by
  unfold clusterDegradationFinding stripTimestamps
  by_cases h : c.State = "DEGRADED" <;> simp [h]

@[simp] lemma hsmDegradationFinding_Status :
    (hsmDegradationFinding a r p t hsm).Compliance.Status
      = if hsm.State = "DEGRADED" then "FAILED" else "PASSED" := by
  unfold hsmDegradationFinding
  by_cases h : hsm.State = "DEGRADED" <;> simp [h]

@[simp] lemma hsmDegradationFinding_Label :
    (hsmDegradationFinding a r p t hsm).Severity.Label
      = if hsm.State = "DEGRADED" then "HIGH" else "INFORMATIONAL" := by
  unfold hsmDegradationFinding
  by_cases h : hsm.State = "DEGRADED" <;> simp [h]

@[simp] lemma hsmDegradationFinding_Workflow :
    (hsmDegradationFinding a r p t hsm).Workflow.Status
      = if hsm.State = "DEGRADED" then "NEW" else "RESOLVED" := by
  unfold hsmDegradationFinding
  by_cases h : hsm.State = "DEGRADED" <;> simp [h]

@[simp] lemma hsmDegradationFinding_RecordState :
    (hsmDegradationFinding a r p t hsm).RecordState
      = if hsm.State = "DEGRADED" then "ACTIVE" else "ARCHIVED" := by
  unfold hsmDegradationFinding
  by_cases h : hsm.State = "DEGRADED" <;> simp [h]

@[simp] lemma hsmDegradationFinding_Id :
    (hsmDegradationFinding a r p t hsm).Id
      = hsm.HsmId ++ "/cloudhsm-cluster-degradation-check" := by
  unfold hsmDegradationFinding
  by_cases h : hsm.State = "DEGRADED" <;> simp [h]

@[simp] lemma hsmDegradationFinding_GeneratorId :
    (hsmDegradationFinding a r p t hsm).GeneratorId = hsm.HsmId := by
  unfold hsmDegradationFinding
  by_cases h : hsm.State = "DEGRADED" <;> simp [h]

@[simp] lemma hsmDegradationFinding_FirstObservedAt :
    (hsmDegradationFinding a r p t hsm).FirstObservedAt = t := by
  unfold hsmDegradationFinding
  by_cases h : hsm.State = "DEGRADED" <;> simp [h]

@[simp] lemma hsmDegradationFinding_CreatedAt :
    (hsmDegradationFinding a r p t hsm).CreatedAt = t := by
  unfold hsmDegradationFinding
  by_cases h : hsm.State = "DEGRADED" <;> simp [h]

@[simp] lemma hsmDegradationFinding_UpdatedAt :
    (hsmDegradationFinding a r p t hsm).UpdatedAt = t := by
  unfold hsmDegradationFinding
  by_cases h : hsm.State = "DEGRADED" <;> simp [h]

lemma hsmDegradationFinding_strip :
    stripTimestamps (hsmDegradationFinding a r p t₁ hsm)
      = stripTimestamps (hsmDegradationFinding a r p t₂ hsm) := by
  unfold hsmDegradationFinding stripTimestamps
  by_cases h : hsm.State = "DEGRADED" <;> simp [h]

@[simp] lemma clusterBackupFinding_Status :
    (clusterBackupFinding a r p t c bk).Compliance.Status
      = if hasReadyBackup bk then "PASSED" else "FAILED" := by
  unfold clusterBackupFinding hasReadyBackup
  by_cases h : (bk.Backups.filter (fun x => x.BackupState == "READY")).length > 0 <;>
    simp [h]

@[simp] lemma clusterBackupFinding_Label :
    (clusterBackupFinding a r p t c bk).Severity.Label
      = if hasReadyBackup bk then "INFORMATIONAL" else "HIGH" := by
  unfold clusterBackupFinding hasReadyBackup
  by_cases h : (bk.Backups.filter (fun x => x.BackupState == "READY")).length > 0 <;>
    simp [h]

@[simp] lemma clusterBackupFinding_Workflow :
    (clusterBackupFinding a r p t c bk).Workflow.Status
      = if hasReadyBackup bk then "RESOLVED" else "NEW" := by
  unfold clusterBackupFinding hasReadyBackup
  by_cases h : (bk.Backups.filter (fun x => x.BackupState == "READY")).length > 0 <;>
    simp [h]

@[simp] lemma clusterBackupFinding_RecordState :
    (clusterBackupFinding a r p t c bk).RecordState
      = if hasReadyBackup bk then "ARCHIVED" else "ACTIVE" := by
  unfold clusterBackupFinding hasReadyBackup
  by_cases h : (bk.Backups.filter (fun x => x.BackupState == "READY")).length > 0 <;>
    simp [h]

@[simp] lemma clusterBackupFinding_Id :
    (clusterBackupFinding a r p t c bk).Id
      = c.ClusterId ++ "/cloudhsm-cluster-backup-check" := by
  unfold clusterBackupFinding
  by_cases h : (bk.Backups.filter (fun x => x.BackupState == "READY")).length > 0 <;>
    simp [h]

@[simp] lemma clusterBackupFinding_GeneratorId :
    (clusterBackupFinding a r p t c bk).GeneratorId = c.ClusterId := by
  unfold clusterBackupFinding
  by_cases h : (bk.Backups.filter (fun x => x.BackupState == "READY")).length > 0 <;>
    simp [h]

@[simp] lemma clusterBackupFinding_FirstObservedAt :
    (clusterBackupFinding a r p t c bk).FirstObservedAt = t := by
  unfold clusterBackupFinding
  by_cases h : (bk.Backups.filter (fun x => x.BackupState == "READY")).length > 0 <;>
    simp [h]

@[simp] lemma clusterBackupFinding_CreatedAt :
    (clusterBackupFinding a r p t c bk).CreatedAt = t := by
  unfold clusterBackupFinding
  by_cases h : (bk.Backups.filter (fun x => x.BackupState == "READY")).length > 0 <;>
    simp [h]

@[simp] lemma clusterBackupFinding_UpdatedAt :
    (clusterBackupFinding a r p t c bk).UpdatedAt = t := by
  unfold clusterBackupFinding
  by_cases h : (bk.Backups.filter (fun x => x.BackupState == "READY")).length > 0 <;>
    simp [h]

lemma clusterBackupFinding_strip :
    stripTimestamps (clusterBackupFinding a r p t₁ c bk)
      = stripTimestamps (clusterBackupFinding a r p t₂ c bk) := by
  unfold clusterBackupFinding stripTimestamps
  by_cases h : (bk.Backups.filter (fun x => x.BackupState == "READY")).length > 0 <;>
    simp [h]

end BuilderLemmas

/-! ### Claim theorems -/

/-- C1: for every cluster list returned by the provider, Rule A
(`cloudhsm_cluster_degradation_check`) emits exactly one finding per
cluster — the output has the same length as the cluster list and the
`i`-th finding evaluates the `i`-th cluster: when the `State` of the cluster
is not `DEGRADED` the finding has `Compliance.Status = PASSED` and
`Severity.Label = INFORMATIONAL`; when the `State` is `DEGRADED` it has
`Compliance.Status = FAILED`, `Severity.Label = HIGH`,
`Workflow.Status = NEW`, and `RecordState = ACTIVE`. -/
theorem cluster_degradation_one_finding_per_cluster
    (resp : ClusterResp) (a r p t : String) :
    (cloudhsm_cluster_degradation_check resp a r p t).length = resp.Clusters.length
    ∧ ∀ i : Nat, ∀ c : Cluster, resp.Clusters[i]? = some c →
        ∃ f : Finding,
          (cloudhsm_cluster_degradation_check resp a r p t)[i]? = some f
          ∧ (c.State ≠ "DEGRADED" →
              f.Compliance.Status = "PASSED" ∧ f.Severity.Label = "INFORMATIONAL")
          ∧ (c.State = "DEGRADED" →
              f.Compliance.Status = "FAILED" ∧ f.Severity.Label = "HIGH"
              ∧ f.Workflow.Status = "NEW" ∧ f.RecordState = "ACTIVE") := by
  refine ⟨by simp [cloudhsm_cluster_degradation_check], ?_⟩
  intro i c hc
  refine ⟨clusterDegradationFinding a r p t c, ?_, ?_, ?_⟩
  · simp [cloudhsm_cluster_degradation_check, List.getElem?_map, hc]
  · intro h; simp [h]
  · intro h; simp [h]

/-- Witness for C1 at a one-element cluster list holding a `DEGRADED`
cluster: the single finding is the failing one. -/
theorem cluster_degradation_one_finding_per_cluster_witness :
    Option.map (ComplianceObj.Status ∘ Finding.Compliance)
      (cloudhsm_cluster_degradation_check ⟨[⟨"cluster-1234", "DEGRADED", []⟩]⟩
        "012345678901" "us-east-1" "aws" "2024-01-01T00:00:00+00:00")[0]?
      = some "FAILED"
    ∧ Option.map (SeverityObj.Label ∘ Finding.Severity)
      (cloudhsm_cluster_degradation_check ⟨[⟨"cluster-1234", "DEGRADED", []⟩]⟩
        "012345678901" "us-east-1" "aws" "2024-01-01T00:00:00+00:00")[0]?
      = some "HIGH"
    ∧ Option.map (WorkflowObj.Status ∘ Finding.Workflow)
      (cloudhsm_cluster_degradation_check ⟨[⟨"cluster-1234", "DEGRADED", []⟩]⟩
        "012345678901" "us-east-1" "aws" "2024-01-01T00:00:00+00:00")[0]?
      = some "NEW"
    ∧ Option.map Finding.RecordState
      (cloudhsm_cluster_degradation_check ⟨[⟨"cluster-1234", "DEGRADED", []⟩]⟩
        "012345678901" "us-east-1" "aws" "2024-01-01T00:00:00+00:00")[0]?
      = some "ACTIVE" := by
  obtain ⟨f, hf, -, hfail⟩ :=
    (cluster_degradation_one_finding_per_cluster ⟨[⟨"cluster-1234", "DEGRADED", []⟩]⟩
      "012345678901" "us-east-1" "aws" "2024-01-01T00:00:00+00:00").2 0
      ⟨"cluster-1234", "DEGRADED", []⟩ rfl
  obtain ⟨h1, h2, h3, h4⟩ := hfail rfl
  rw [hf]
  simp [h1, h2, h3, h4, Function.comp_def]

/-- C2: Rule B (`cloudhsm_hsm_degradation_check`) emits exactly one
finding per HSM: the output length is the total HSM count, the evaluated
resource ids are exactly the HSM ids of every cluster in order, each HSM
`h` contributes the finding `hsmDegradationFinding a r p t h` — a
function of that HSM alone, independent of its siblings — whose outcome
is `PASSED` iff `h.State ≠ "DEGRADED"`, and clusters without HSMs
contribute nothing. -/
theorem hsm_degradation_one_finding_per_hsm
    (resp : ClusterResp) (a r p t : String) :
    (cloudhsm_hsm_degradation_check resp a r p t).length
        = (resp.Clusters.map (fun c => c.Hsms.length)).sum
    ∧ (cloudhsm_hsm_degradation_check resp a r p t).map Finding.GeneratorId
        = resp.Clusters.flatMap (fun c => c.Hsms.map Hsm.HsmId)
    ∧ (∀ c ∈ resp.Clusters, ∀ h ∈ c.Hsms,
        hsmDegradationFinding a r p t h ∈ cloudhsm_hsm_degradation_check resp a r p t
        ∧ (h.State ≠ "DEGRADED" →
            (hsmDegradationFinding a r p t h).Compliance.Status = "PASSED")
        ∧ (h.State = "DEGRADED" →
            (hsmDegradationFinding a r p t h).Compliance.Status = "FAILED"))
    ∧ ((∀ c ∈ resp.Clusters, c.Hsms = []) →
        cloudhsm_hsm_degradation_check resp a r p t = []) := by
  refine ⟨?_, ?_, ?_, ?_⟩
  · simp [cloudhsm_hsm_degradation_check, Function.comp_def]
  · simp [cloudhsm_hsm_degradation_check, List.map_flatMap, List.map_map,
      Function.comp_def]
  · intro c hc h hh
    refine ⟨?_, ?_, ?_⟩
    · exact List.mem_flatMap.mpr ⟨c, hc, List.mem_map_of_mem _ hh⟩
    · intro hne; simp [hne]
    · intro heq; simp [heq]
  · intro hall
    simp only [cloudhsm_hsm_degradation_check]
    rw [List.flatMap_eq_nil_iff]
    intro c hc
    simp [hall c hc]

/-- Witness for C2 at one cluster holding one `DEGRADED` HSM. -/
theorem hsm_degradation_one_finding_per_hsm_witness :
    hsmDegradationFinding "012345678901" "us-east-1" "aws" "T" ⟨"hsm-1", "DEGRADED"⟩
        ∈ cloudhsm_hsm_degradation_check
            ⟨[⟨"cluster-1", "ACTIVE", [⟨"hsm-1", "DEGRADED"⟩]⟩]⟩
            "012345678901" "us-east-1" "aws" "T"
    ∧ (hsmDegradationFinding "012345678901" "us-east-1" "aws" "T"
        ⟨"hsm-1", "DEGRADED"⟩).Compliance.Status = "FAILED" := by
  obtain ⟨hmem, -, hfail⟩ :=
    (hsm_degradation_one_finding_per_hsm
      ⟨[⟨"cluster-1", "ACTIVE", [⟨"hsm-1", "DEGRADED"⟩]⟩]⟩
      "012345678901" "us-east-1" "aws" "T").2.2.1
      ⟨"cluster-1", "ACTIVE", [⟨"hsm-1", "DEGRADED"⟩]⟩ (by simp)
      ⟨"hsm-1", "DEGRADED"⟩ (by simp)
  exact ⟨hmem, hfail rfl⟩

/-- C3: Rule C (`cloudhsm_cluster_backup_check`) emits exactly one
finding per cluster, determined by filtering the backups fetched for the id of that
cluster to `BackupState == "READY"`: the finding is `FAILED` when
that filter is empty (in particular when the cluster has no backups at
all) and `PASSED` as soon as at least one `READY` backup exists, whatever
other non-`READY` backups accompany it. -/
theorem backup_check_one_finding_per_cluster
    (resp : ClusterResp) (describe_backups : String → BackupResp)
    (a r p t : String) :
    (cloudhsm_cluster_backup_check resp describe_backups a r p t).length
        = resp.Clusters.length
    ∧ ∀ i : Nat, ∀ c : Cluster, resp.Clusters[i]? = some c →
        ∃ f : Finding,
          (cloudhsm_cluster_backup_check resp describe_backups a r p t)[i]? = some f
          ∧ (((describe_backups c.ClusterId).Backups.filter
                (fun x => x.BackupState == "READY")).length = 0 →
              f.Compliance.Status = "FAILED")
          ∧ (((describe_backups c.ClusterId).Backups.filter
                (fun x => x.BackupState == "READY")).length > 0 →
              f.Compliance.Status = "PASSED") := by
  refine ⟨by simp [cloudhsm_cluster_backup_check], ?_⟩
  intro i c hc
  refine ⟨clusterBackupFinding a r p t c (describe_backups c.ClusterId), ?_, ?_, ?_⟩
  · simp [cloudhsm_cluster_backup_check, List.getElem?_map, hc]
  · intro h0
    have : ¬ hasReadyBackup (describe_backups c.ClusterId) := by
      simp [hasReadyBackup, h0]
    simp [this]
  · intro hpos
    have : hasReadyBackup (describe_backups c.ClusterId) := hpos
    simp [this]

/-- Witness for C3: one cluster whose fetched backups hold a `PENDING`
and no `READY` backup, giving a `FAILED` finding. -/
theorem backup_check_one_finding_per_cluster_witness :
    Option.map (ComplianceObj.Status ∘ Finding.Compliance)
      (cloudhsm_cluster_backup_check ⟨[⟨"cluster-1", "ACTIVE", []⟩]⟩
        (fun cid => ⟨[⟨cid, "PENDING"⟩]⟩) "012345678901" "us-east-1" "aws" "T")[0]?
      = some "FAILED" := by
  obtain ⟨f, hf, hfail, -⟩ :=
    (backup_check_one_finding_per_cluster ⟨[⟨"cluster-1", "ACTIVE", []⟩]⟩
      (fun cid => ⟨[⟨cid, "PENDING"⟩]⟩) "012345678901" "us-east-1" "aws" "T").2 0
      ⟨"cluster-1", "ACTIVE", []⟩ rfl
  rw [hf]
  simp [hfail (by simp), Function.comp_def]

/-- C4: the finding `Id` is always the id of the evaluated resource followed
by `/` and a slug, and is reproducible — but the slug is NOT
rule-specific: Rule B (`cloudhsm_hsm_degradation_check`, source lines 174
and 230) reuses the Rule A slug `cloudhsm-cluster-degradation-check`
instead of an HSM-specific one.  Concretely, the finding Rule B emits for
HSM `hsm-1234` carries the Id
`hsm-1234/cloudhsm-cluster-degradation-check`, whose slug equals the one
Rule A uses for cluster `cluster-1234`. -/
theorem hsm_check_reuses_cluster_check_slug :
    (cloudhsm_hsm_degradation_check
        ⟨[⟨"cluster-1234", "ACTIVE", [⟨"hsm-1234", "ACTIVE"⟩]⟩]⟩
        "012345678901" "us-east-1" "aws" "T").map Finding.Id
      = ["hsm-1234/cloudhsm-cluster-degradation-check"]
    ∧ (cloudhsm_cluster_degradation_check ⟨[⟨"cluster-1234", "ACTIVE", []⟩]⟩
        "012345678901" "us-east-1" "aws" "T").map Finding.Id
      = ["cluster-1234/cloudhsm-cluster-degradation-check"] := by
  constructor
  · simp [cloudhsm_hsm_degradation_check]
  · simp [cloudhsm_cluster_degradation_check]

/-- C5: every finding emitted by any of the three checks evaluates some
resource of the snapshot, and its `Severity.Label` is `INFORMATIONAL`
exactly when that resource satisfies the predicate of the check, and `HIGH`
otherwise. -/
theorem severity_informational_iff_passed
    (resp : ClusterResp) (describe_backups : String → BackupResp)
    (a r p t : String) :
    (∀ f ∈ cloudhsm_cluster_degradation_check resp a r p t,
      ∃ c ∈ resp.Clusters, f = clusterDegradationFinding a r p t c
        ∧ (f.Severity.Label = "INFORMATIONAL" ↔ c.State ≠ "DEGRADED")
        ∧ (c.State = "DEGRADED" → f.Severity.Label = "HIGH"))
    ∧ (∀ f ∈ cloudhsm_hsm_degradation_check resp a r p t,
      ∃ c ∈ resp.Clusters, ∃ h ∈ c.Hsms, f = hsmDegradationFinding a r p t h
        ∧ (f.Severity.Label = "INFORMATIONAL" ↔ h.State ≠ "DEGRADED")
        ∧ (h.State = "DEGRADED" → f.Severity.Label = "HIGH"))
    ∧ (∀ f ∈ cloudhsm_cluster_backup_check resp describe_backups a r p t,
      ∃ c ∈ resp.Clusters,
        f = clusterBackupFinding a r p t c (describe_backups c.ClusterId)
        ∧ (f.Severity.Label = "INFORMATIONAL"
            ↔ hasReadyBackup (describe_backups c.ClusterId))
        ∧ (¬ hasReadyBackup (describe_backups c.ClusterId) →
            f.Severity.Label = "HIGH")) := by
  refine ⟨?_, ?_, ?_⟩
  · intro f hf
    obtain ⟨c, hc, rfl⟩ := List.mem_map.mp hf
    refine ⟨c, hc, rfl, ?_, ?_⟩ <;>
      by_cases h : c.State = "DEGRADED" <;> simp [h]
  · intro f hf
    obtain ⟨c, hc, hmem⟩ := List.mem_flatMap.mp hf
    obtain ⟨h, hh, rfl⟩ := List.mem_map.mp hmem
    refine ⟨c, hc, h, hh, rfl, ?_, ?_⟩ <;>
      by_cases hs : h.State = "DEGRADED" <;> simp [hs]
  · intro f hf
    obtain ⟨c, hc, rfl⟩ := List.mem_map.mp hf
    refine ⟨c, hc, rfl, ?_, ?_⟩ <;>
      by_cases h : hasReadyBackup (describe_backups c.ClusterId) <;> simp [h]

/-- Witness for C5: one cluster in the `ACTIVE` state holding one
`DEGRADED` HSM — the Rule A finding is `INFORMATIONAL`, the Rule B finding is
`HIGH`. -/
theorem severity_informational_iff_passed_witness :
    (clusterDegradationFinding "1" "r" "p" "T"
        ⟨"c1", "ACTIVE", [⟨"h1", "DEGRADED"⟩]⟩).Severity.Label = "INFORMATIONAL"
    ∧ (hsmDegradationFinding "1" "r" "p" "T"
        ⟨"h1", "DEGRADED"⟩).Severity.Label = "HIGH" := by
  have hmain := severity_informational_iff_passed
    ⟨[⟨"c1", "ACTIVE", [⟨"h1", "DEGRADED"⟩]⟩]⟩ (fun _ => ⟨[]⟩) "1" "r" "p" "T"
  constructor
  · obtain ⟨c, hc, heq, hiff, -⟩ := hmain.1
      (clusterDegradationFinding "1" "r" "p" "T" ⟨"c1", "ACTIVE", [⟨"h1", "DEGRADED"⟩]⟩)
      (by simp [cloudhsm_cluster_degradation_check])
    have hc' : c = ⟨"c1", "ACTIVE", [⟨"h1", "DEGRADED"⟩]⟩ := by
      simpa using hc
    exact hiff.mpr (by simp [hc'])
  · obtain ⟨c, hc, h, hh, heq, -, hhigh⟩ := hmain.2.1
      (hsmDegradationFinding "1" "r" "p" "T" ⟨"h1", "DEGRADED"⟩)
      (by simp [cloudhsm_hsm_degradation_check])
    have hc' : c = ⟨"c1", "ACTIVE", [⟨"h1", "DEGRADED"⟩]⟩ := by
      simpa using hc
    have hh' : h = ⟨"h1", "DEGRADED"⟩ := by
      subst hc'; simpa using hh
    exact hhigh (by simp [hh'])

/-- C6: every finding emitted by any of the three checks carries exactly
one of the two pairs `(Workflow.Status, RecordState)`:
`(RESOLVED, ARCHIVED)` together with `Compliance.Status = PASSED`, or
`(NEW, ACTIVE)` together with `Compliance.Status = FAILED`. -/
theorem workflow_recordstate_set_together
    (resp : ClusterResp) (describe_backups : String → BackupResp)
    (a r p t : String) :
    (∀ f ∈ cloudhsm_cluster_degradation_check resp a r p t,
      (f.Compliance.Status = "PASSED" ∧ f.Workflow.Status = "RESOLVED"
        ∧ f.RecordState = "ARCHIVED")
      ∨ (f.Compliance.Status = "FAILED" ∧ f.Workflow.Status = "NEW"
        ∧ f.RecordState = "ACTIVE"))
    ∧ (∀ f ∈ cloudhsm_hsm_degradation_check resp a r p t,
      (f.Compliance.Status = "PASSED" ∧ f.Workflow.Status = "RESOLVED"
        ∧ f.RecordState = "ARCHIVED")
      ∨ (f.Compliance.Status = "FAILED" ∧ f.Workflow.Status = "NEW"
        ∧ f.RecordState = "ACTIVE"))
    ∧ (∀ f ∈ cloudhsm_cluster_backup_check resp describe_backups a r p t,
      (f.Compliance.Status = "PASSED" ∧ f.Workflow.Status = "RESOLVED"
        ∧ f.RecordState = "ARCHIVED")
      ∨ (f.Compliance.Status = "FAILED" ∧ f.Workflow.Status = "NEW"
        ∧ f.RecordState = "ACTIVE")) := by
  refine ⟨?_, ?_, ?_⟩
  · intro f hf
    obtain ⟨c, hc, rfl⟩ := List.mem_map.mp hf
    by_cases h : c.State = "DEGRADED"
    · right; simp [h]
    · left; simp [h]
  · intro f hf
    obtain ⟨c, hc, hmem⟩ := List.mem_flatMap.mp hf
    obtain ⟨h, hh, rfl⟩ := List.mem_map.mp hmem
    by_cases hs : h.State = "DEGRADED"
    · right; simp [hs]
    · left; simp [hs]
  · intro f hf
    obtain ⟨c, hc, rfl⟩ := List.mem_map.mp hf
    by_cases h : hasReadyBackup (describe_backups c.ClusterId)
    · left; simp [h]
    · right; simp [h]

/-- Witness for C6 at a degraded cluster: its finding carries exactly
the failing pair. -/
theorem workflow_recordstate_set_together_witness :
    (clusterDegradationFinding "1" "r" "p" "T" ⟨"c1", "DEGRADED", []⟩).Compliance.Status
        = "FAILED"
    ∧ (clusterDegradationFinding "1" "r" "p" "T" ⟨"c1", "DEGRADED", []⟩).Workflow.Status
        = "NEW"
    ∧ (clusterDegradationFinding "1" "r" "p" "T" ⟨"c1", "DEGRADED", []⟩).RecordState
        = "ACTIVE" := by
  have hpair := (workflow_recordstate_set_together ⟨[⟨"c1", "DEGRADED", []⟩]⟩
    (fun _ => ⟨[]⟩) "1" "r" "p" "T").1
    (clusterDegradationFinding "1" "r" "p" "T" ⟨"c1", "DEGRADED", []⟩)
    (by simp [cloudhsm_cluster_degradation_check])
  rcases hpair with hpass | hfail
  · exfalso
    have := hpass.1
    simp at this
  · exact hfail

lemma describe_clusters_of_cached (provider : ClusterResp) (s : PassState)
    (resp : ClusterResp) (h : s.cache = some resp) :
    describe_clusters provider s = (resp, s) := by
  simp [describe_clusters, h]

lemma runCheck_snd_of_cached (provider : ClusterResp)
    (describe_backups : String → BackupResp) (a r p t : String)
    (k : CheckKind) (s : PassState) (resp : ClusterResp) (h : s.cache = some resp) :
    (runCheck provider describe_backups a r p t k s).2 = s := by
  cases k <;> simp [runCheck, describe_clusters, h]

lemma runPass_of_cached (provider : ClusterResp)
    (describe_backups : String → BackupResp) (a r p t : String)
    (ks : List CheckKind) (s : PassState) (resp : ClusterResp)
    (h : s.cache = some resp) :
    runPass provider describe_backups a r p t ks s = s := by
  induction ks with
  | nil => rfl
  | cons k ks ih =>
      rw [runPass, runCheck_snd_of_cached provider describe_backups a r p t k s resp h]
      exact ih

/-- C7: within one audit pass (one shared cache), the provider call
behind `describe_clusters` is issued at most once no matter how many of
the three checks run, or in what order: after any pass the call counter
is at most `1`, after any non-empty pass the state is exactly the cached
snapshot with one provider call, and a further lookup returns that same
stored snapshot with the state unchanged (no new provider call). -/
theorem describe_clusters_fetched_at_most_once (provider : ClusterResp)
    (describe_backups : String → BackupResp) (a r p t : String)
    (ks : List CheckKind) :
    (runPass provider describe_backups a r p t ks emptyPass).providerCalls ≤ 1
    ∧ (ks ≠ [] →
        runPass provider describe_backups a r p t ks emptyPass
          = { cache := some provider, providerCalls := 1 }
        ∧ describe_clusters provider
            (runPass provider describe_backups a r p t ks emptyPass)
          = (provider, runPass provider describe_backups a r p t ks emptyPass)) := by
  have hrun : ∀ k : CheckKind, ∀ ks' : List CheckKind,
      runPass provider describe_backups a r p t (k :: ks') emptyPass
        = { cache := some provider, providerCalls := 1 } := by
    intro k ks'
    rw [runPass]
    have hsnd : (runCheck provider describe_backups a r p t k emptyPass).2
        = { cache := some provider, providerCalls := 1 } := by
      cases k <;> rfl
    rw [hsnd]
    exact runPass_of_cached provider describe_backups a r p t ks' _ provider rfl
  cases ks with
  | nil => exact ⟨Nat.zero_le 1, fun h => absurd rfl h⟩
  | cons k ks' =>
      refine ⟨?_, fun _ => ⟨hrun k ks', ?_⟩⟩
      · rw [hrun k ks']
      · rw [hrun k ks']
        exact describe_clusters_of_cached provider _ provider rfl

/-- Witness for C7: running all three checks in registration order makes
exactly one provider call and caches the snapshot. -/
theorem describe_clusters_fetched_at_most_once_witness :
    runPass ⟨[⟨"c1", "ACTIVE", []⟩]⟩ (fun _ => ⟨[]⟩) "1" "r" "p" "T"
        [CheckKind.clusterDegradation, CheckKind.hsmDegradation, CheckKind.clusterBackup]
        emptyPass
      = { cache := some ⟨[⟨"c1", "ACTIVE", []⟩]⟩, providerCalls := 1 }
    ∧ (runPass ⟨[⟨"c1", "ACTIVE", []⟩]⟩ (fun _ => ⟨[]⟩) "1" "r" "p" "T"
        [CheckKind.clusterDegradation, CheckKind.hsmDegradation, CheckKind.clusterBackup]
        emptyPass).providerCalls ≤ 1 := by
  have h := describe_clusters_fetched_at_most_once ⟨[⟨"c1", "ACTIVE", []⟩]⟩
    (fun _ => ⟨[]⟩) "1" "r" "p" "T"
    [CheckKind.clusterDegradation, CheckKind.hsmDegradation, CheckKind.clusterBackup]
  exact ⟨(h.2 (by simp)).1, h.1⟩

/-- C8: determinism/idempotence — running any of the three checks twice
against the same snapshot, account id, region, and partition, with only
the sampled timestamp differing between the runs, produces finding
sequences that agree field for field once the three timestamp fields
`FirstObservedAt`, `CreatedAt`, `UpdatedAt` are blanked. -/
theorem checks_idempotent_modulo_timestamps
    (resp : ClusterResp) (describe_backups : String → BackupResp)
    (a r p : String) (t₁ t₂ : String) :
    (cloudhsm_cluster_degradation_check resp a r p t₁).map stripTimestamps
        = (cloudhsm_cluster_degradation_check resp a r p t₂).map stripTimestamps
    ∧ (cloudhsm_hsm_degradation_check resp a r p t₁).map stripTimestamps
        = (cloudhsm_hsm_degradation_check resp a r p t₂).map stripTimestamps
    ∧ (cloudhsm_cluster_backup_check resp describe_backups a r p t₁).map stripTimestamps
        = (cloudhsm_cluster_backup_check resp describe_backups a r p t₂).map stripTimestamps := by
  have e₁ : (stripTimestamps ∘ clusterDegradationFinding a r p t₁)
      = stripTimestamps ∘ clusterDegradationFinding a r p t₂ :=
    funext fun c => clusterDegradationFinding_strip a r p t₁ t₂ c
  have e₂ : (stripTimestamps ∘ hsmDegradationFinding a r p t₁)
      = stripTimestamps ∘ hsmDegradationFinding a r p t₂ :=
    funext fun h => hsmDegradationFinding_strip a r p t₁ t₂ h
  refine ⟨?_, ?_, ?_⟩
  · simp only [cloudhsm_cluster_degradation_check, List.map_map, e₁]
  · simp only [cloudhsm_hsm_degradation_check, List.map_flatMap, List.map_map, e₂]
  · simp only [cloudhsm_cluster_backup_check, List.map_map]
    have e₃ : (stripTimestamps ∘ fun clstr =>
        clusterBackupFinding a r p t₁ clstr (describe_backups clstr.ClusterId))
      = stripTimestamps ∘ fun clstr =>
        clusterBackupFinding a r p t₂ clstr (describe_backups clstr.ClusterId) :=
      funext fun c => clusterBackupFinding_strip a r p t₁ t₂ c (describe_backups c.ClusterId)
    rw [e₃]

lemma backup_loop_error_aux (fetchBackups : String → Except ProviderError BackupResp)
    (a r p t : String) (e : ProviderError) (c : Cluster) (post : List Cluster)
    (hc : fetchBackups c.ClusterId = Except.error e) :
    ∀ pre : List Cluster,
      (∀ c' ∈ pre, ∃ b, fetchBackups c'.ClusterId = Except.ok b) →
      (cluster_backup_check_loop fetchBackups a r p t (pre ++ c :: post)).2 = some e
      ∧ ∀ f ∈ (cluster_backup_check_loop fetchBackups a r p t (pre ++ c :: post)).1,
          ∃ c' ∈ pre, f.GeneratorId = c'.ClusterId := by
  intro pre
  induction pre with
  | nil =>
      intro _
      simp [cluster_backup_check_loop, hc]
  | cons c0 pre' ih =>
      intro hpre
      obtain ⟨b0, hb0⟩ := hpre c0 (by simp)
      obtain ⟨ih2, ih1⟩ := ih (fun c' h' => hpre c' (by simp [h']))
      constructor
      · simp only [List.cons_append, cluster_backup_check_loop, hb0]
        exact ih2
      · simp only [List.cons_append, cluster_backup_check_loop, hb0]
        intro f hf
        rcases List.mem_cons.mp hf with hf0 | hftail



        · exact ⟨c0, by simp, by simp [hf0]⟩
        · obtain ⟨c', hc', hgen⟩ := ih1 f hftail
          exact ⟨c', by simp [hc'], hgen⟩

/-- C9: provider errors are neither caught nor suppressed.  A failing
`describe_clusters` fetch aborts Rule A before any finding is yielded,
propagating the error; a failing per-cluster `describe_backups` fetch in
Rule C propagates the error, the findings already yielded all belong to
the earlier clusters whose fetches succeeded, and no finding is emitted
for the cluster whose fetch failed. -/
theorem provider_errors_propagate (a r p t : String) (e : ProviderError)
    (fetchBackups : String → Except ProviderError BackupResp)
    (pre : List Cluster) (c : Cluster) (post : List Cluster)
    (hpre : ∀ c' ∈ pre, ∃ b, fetchBackups c'.ClusterId = Except.ok b)
    (hc : fetchBackups c.ClusterId = Except.error e) :
    cluster_degradation_check_run (Except.error e) a r p t = ([], some e)
    ∧ (cluster_backup_check_loop fetchBackups a r p t (pre ++ c :: post)).2 = some e
    ∧ (∀ f ∈ (cluster_backup_check_loop fetchBackups a r p t (pre ++ c :: post)).1,
        ∃ c' ∈ pre, f.GeneratorId = c'.ClusterId)
    ∧ (c.ClusterId ∉ pre.map Cluster.ClusterId →
        ∀ f ∈ (cluster_backup_check_loop fetchBackups a r p t (pre ++ c :: post)).1,
          f.GeneratorId ≠ c.ClusterId) := by
  obtain ⟨h2, h1⟩ := backup_loop_error_aux fetchBackups a r p t e c post hc pre hpre
  refine ⟨rfl, h2, h1, ?_⟩
  intro hnotin f hf heq
  obtain ⟨c', hc', hgen⟩ := h1 f hf
  exact hnotin (List.mem_map.mpr ⟨c', hc', by rw [← hgen, heq]⟩)

/-- Witness for C9: the backup fetch succeeds for cluster `c1` and fails
for cluster `c2` with a throttling error — the loop output keeps the finding of `c1`, carries the propagated error, and holds no finding for `c2`. -/
theorem provider_errors_propagate_witness :
    cluster_degradation_check_run (Except.error ⟨"RequestThrottled"⟩) "1" "r" "p" "T"
      = ([], some ⟨"RequestThrottled"⟩)
    ∧ (cluster_backup_check_loop
        (fun cid => if cid = "c2" then Except.error ⟨"RequestThrottled"⟩
          else Except.ok ⟨[]⟩) "1" "r" "p" "T"
        [⟨"c1", "ACTIVE", []⟩, ⟨"c2", "ACTIVE", []⟩]).2
      = some ⟨"RequestThrottled"⟩ := by
  have h := provider_errors_propagate "1" "r" "p" "T" ⟨"RequestThrottled"⟩
    (fun cid => if cid = "c2" then Except.error ⟨"RequestThrottled"⟩
      else Except.ok ⟨[]⟩)
    [⟨"c1", "ACTIVE", []⟩] ⟨"c2", "ACTIVE", []⟩ []
    (by intro c' hc'
        have : c' = ⟨"c1", "ACTIVE", []⟩ := by simpa using hc'
        subst this
        exact ⟨⟨[]⟩, by simp⟩)
    (by simp)
  exact ⟨h.1, h.2.1⟩

/-- C10: within a single invocation of any one check, the timestamp is
sampled once before iteration (`iso8601Time = ...` precedes each loop),
so every finding of that invocation carries the one sampled value `t` in
all three of `FirstObservedAt`, `CreatedAt`, `UpdatedAt` — the three
fields agree within each finding and across all findings of the
invocation. -/
theorem timestamps_sampled_once_per_invocation
    (resp : ClusterResp) (describe_backups : String → BackupResp)
    (a r p t : String) :
    (∀ f ∈ cloudhsm_cluster_degradation_check resp a r p t,
      f.FirstObservedAt = t ∧ f.CreatedAt = t ∧ f.UpdatedAt = t)
    ∧ (∀ f ∈ cloudhsm_hsm_degradation_check resp a r p t,
      f.FirstObservedAt = t ∧ f.CreatedAt = t ∧ f.UpdatedAt = t)
    ∧ (∀ f ∈ cloudhsm_cluster_backup_check resp describe_backups a r p t,
      f.FirstObservedAt = t ∧ f.CreatedAt = t ∧ f.UpdatedAt = t) := by
  refine ⟨?_, ?_, ?_⟩
  · intro f hf
    obtain ⟨c, hc, rfl⟩ := List.mem_map.mp hf
    simp
  · intro f hf
    obtain ⟨c, hc, hmem⟩ := List.mem_flatMap.mp hf
    obtain ⟨h, hh, rfl⟩ := List.mem_map.mp hmem
    simp
  · intro f hf
    obtain ⟨c, hc, rfl⟩ := List.mem_map.mp hf
    simp

/-- Witness for C10: the finding of a concrete cluster carries the
sampled timestamp in all three fields. -/
theorem timestamps_sampled_once_per_invocation_witness :
    (clusterDegradationFinding "1" "r" "p" "2024-01-01T00:00:00+00:00"
        ⟨"c1", "ACTIVE", []⟩).FirstObservedAt = "2024-01-01T00:00:00+00:00"
    ∧ (clusterDegradationFinding "1" "r" "p" "2024-01-01T00:00:00+00:00"
        ⟨"c1", "ACTIVE", []⟩).CreatedAt = "2024-01-01T00:00:00+00:00"
    ∧ (clusterDegradationFinding "1" "r" "p" "2024-01-01T00:00:00+00:00"
        ⟨"c1", "ACTIVE", []⟩).UpdatedAt = "2024-01-01T00:00:00+00:00" := by
  exact (timestamps_sampled_once_per_invocation ⟨[⟨"c1", "ACTIVE", []⟩]⟩
    (fun _ => ⟨[]⟩) "1" "r" "p" "2024-01-01T00:00:00+00:00").1
    (clusterDegradationFinding "1" "r" "p" "2024-01-01T00:00:00+00:00"
      ⟨"c1", "ACTIVE", []⟩)
    (by simp [cloudhsm_cluster_degradation_check])

end ElectricEyeCloudHSM
